import Mathlib

/-!
Shallow embedding of `prediction_helper.py` (Insurance-Premium repository)
and verification of the frozen claims about it.

Modelling conventions:
* Python strings are Lean `String`s; `str.lower`, `str.strip` and
  `str.split(" & ")` are modelled by structurally recursive functions on the
  underlying character lists (`lowerStr`, `stripChars`, `splitAmp`).
* Python numbers are modelled as `ℚ` (the arithmetic the claims exercise is
  exact: integer sums divided by the constant 14).
* A pandas one-row `DataFrame` is a `Frame`: an ordered association list of
  (column name, value) pairs.  Assigning to an existing column overwrites it
  in place; assigning to a fresh column appends it at the end, exactly as
  pandas does.  `df.drop` removes the column.
* A Python dict is an ordered association list `InputDict`; iteration order
  is list order (Python dicts iterate in insertion order) and `d[k]` is the
  first binding, raising `KeyError` when absent.
* Raising is modelled with `Except Err`; `Err.keyError k` stands for a
  lookup failure (`KeyError`) on key `k`, `Err.typeError` for the
  `TypeError`/`AttributeError` raised when a string value meets a numeric
  operation or vice versa.
* The four artifacts loaded at module start (two models, two scaler
  bundles) are opaque pretrained objects; they are parameters of the
  embedding (`Artifacts`), with a scaler's `transform` an opaque function
  on the extracted column values.
-/

namespace InsurancePremium

/-- A value stored in an applicant input dict or in a data frame cell:
a Python string or a number. -/
inductive Value where
  | str : String → Value
  | num : ℚ → Value
deriving DecidableEq, Repr

/-- An applicant input dict: ordered key/value bindings. -/
abbrev InputDict := List (String × Value)

/-- A one-row pandas data frame: ordered (column, cell) pairs. -/
abbrev Frame := List (String × Value)

/-- Errors the Python code can raise: a `KeyError` carrying the missing
key, or a type mismatch (`TypeError`/`AttributeError`). -/
inductive Err where
  | keyError : String → Err
  | typeError : Err
deriving DecidableEq, Repr

/-- Python `str.lower()` applied characterwise (ASCII-faithful). -/
def lowerStr (s : String) : String := String.mk (s.data.map Char.toLower)

/-- Python `str.strip()`: drop whitespace from both ends. -/
def stripChars (l : List Char) : List Char :=
  ((l.dropWhile Char.isWhitespace).reverse.dropWhile Char.isWhitespace).reverse

/-- Python `str.strip()` on a `String`. -/
def stripStr (s : String) : String := String.mk (stripChars s.data)

/-- Python `str.split(" & ")`: split on the literal three-character
delimiter, scanning left to right, keeping empty pieces. -/
def splitAmp : List Char → List (List Char)
  | ' ' :: '&' :: ' ' :: rest => [] :: splitAmp rest
  | c :: rest =>
    match splitAmp rest with
    | [] => [[c]]
    | t :: ts => (c :: t) :: ts
  | [] => [[]]

/-- The fixed risk table of `calculate_normalized_risk`
(`prediction_helper.py` lines 37-44); weights are Python ints. -/
def risk_scores : List (String × ℤ) :=
  [("diabetes", 6), ("heart disease", 8), ("high blood pressure", 6),
   ("thyroid", 5), ("no disease", 0), ("none", 0)]

/-- The integer total of `calculate_normalized_risk`
(`prediction_helper.py` lines 46-47): lower the history, split on " & ",
strip each token, look it up with default 0, and sum. -/
def riskTotal (medical_history : String) : ℤ :=
  let diseases : List String := (splitAmp (lowerStr medical_history).data).map String.mk
  (diseases.map (fun disease => (risk_scores.lookup (stripStr disease)).getD 0)).sum

/-- `calculate_normalized_risk` (`prediction_helper.py` lines 36-50):
the total divided by the fixed normalizer 14 (true division). -/
def calculate_normalized_risk (medical_history : String) : ℚ :=
  (riskTotal medical_history : ℚ) / 14

/-- The risk scorer as the spec words it: split the history on the
literal delimiter " & " case-insensitively, trim each token, map it
through the fixed table with unrecognized tokens contributing 0, sum,
and divide by 14. -/
def specScore (history : String) : ℚ :=
  let tokens := splitAmp (lowerStr history).data
  (((tokens.map (fun t => (risk_scores.lookup (String.mk (stripChars t))).getD 0)).sum : ℤ) : ℚ) / 14

/-- Column names of a frame, in order. -/
def cols (df : Frame) : List String := df.map Prod.fst

/-- Pandas scalar column assignment `df[c] = v`: overwrite the column in
place when it exists, otherwise append a new column at the end (pandas
creates a fresh column on assignment to an unknown name). -/
def setCol (df : Frame) (c : String) (v : Value) : Frame :=
  if c ∈ cols df then
    df.map (fun p => if p.1 = c then (p.1, v) else p)
  else df ++ [(c, v)]

/-- Read a column's cell (first binding), `none` when the column is absent. -/
def getCol? : Frame → String → Option Value
  | [], _ => none
  | p :: ps, c => if p.1 = c then some p.2 else getCol? ps c

/-- Pandas `df.drop(c, axis="columns")`: remove the column. -/
def dropCol (df : Frame) (c : String) : Frame := df.filter (fun p => decide (p.1 ≠ c))

/-- The fixed schema of `preprocess_input`
(`prediction_helper.py` lines 57-64): 18 columns in fixed order. -/
def expected_columns : List String :=
  ["age", "number_of_dependants", "income_lakhs", "insurance_plan",
   "genetical_risk", "normalized_risk_score",
   "gender_Male", "region_Northwest", "region_Southeast", "region_Southwest",
   "marital_status_Unmarried", "bmi_category_Obesity", "bmi_category_Overweight",
   "bmi_category_Underweight", "smoking_status_Occasional", "smoking_status_Regular",
   "employment_status_Salaried", "employment_status_Self-Employed"]

/-- Insurance plan encoding table (`prediction_helper.py` line 66). -/
def insurance_plan_encoding : List (String × ℚ) :=
  [("Bronze", 1), ("Silver", 2), ("Gold", 3)]

/-- The initial all-zero one-row frame
(`pd.DataFrame(0, columns=expected_columns, index=[0])`, line 67). -/
def initFrame : Frame := expected_columns.map (fun c => (c, Value.num 0))

/-- Python f-string interpolation of a dict value.  The claims only
exercise string values; numeric formatting is a stand-in (it is never
evaluated in any proof, only that it is some function matters). -/
def Value.fmt : Value → String
  | .str s => s
  | .num q => toString q

/-- Python `insurance_plan_encoding.get(value, 1)`
(`prediction_helper.py` line 84): unrecognized values default to 1. -/
def planCode (v : Value) : ℚ :=
  match v with
  | .str s => (insurance_plan_encoding.lookup s).getD 1
  | .num _ => 1

/-- One iteration of the `for key, value in input_dict.items()` loop of
`preprocess_input` (`prediction_helper.py` lines 70-92).  Note the Region
branch (line 74) assigns `1 if column exists else 0`: pandas assignment to
a non-existent column creates it, so an unknown region appends a fresh
all-zero column.  The BMI/Smoking/Employment branches guard the column
test in the `elif` condition itself and are no-ops on unknown values. -/
def applyItem (df : Frame) (key : String) (value : Value) : Frame :=
  if key = "Gender" ∧ value = Value.str "Male" then
    setCol df "gender_Male" (Value.num 1)
  else if key = "Region" then
    setCol df ("region_" ++ value.fmt)
      (if ("region_" ++ value.fmt) ∈ cols df then Value.num 1 else Value.num 0)
  else if key = "Marital Status" ∧ value = Value.str "Unmarried" then
    setCol df "marital_status_Unmarried" (Value.num 1)
  else if key = "BMI Category" ∧ ("bmi_category_" ++ value.fmt) ∈ cols df then
    setCol df ("bmi_category_" ++ value.fmt) (Value.num 1)
  else if key = "Smoking Status" ∧ ("smoking_status_" ++ value.fmt) ∈ cols df then
    setCol df ("smoking_status_" ++ value.fmt) (Value.num 1)
  else if key = "Employment Status" ∧ ("employment_status_" ++ value.fmt) ∈ cols df then
    setCol df ("employment_status_" ++ value.fmt) (Value.num 1)
  else if key = "Insurance Plan" then
    setCol df "insurance_plan" (Value.num (planCode value))
  else if key = "Age" then setCol df "age" value
  else if key = "Number of Dependants" then setCol df "number_of_dependants" value
  else if key = "Income in Lakhs" then setCol df "income_lakhs" value
  else if key = "Genetical Risk" then setCol df "genetical_risk" value
  else df

/-- The encoding loop of `preprocess_input` (lines 67-92): fold the loop
body over the dict entries in insertion order, starting from the all-zero
schema frame. -/
def encodeLoop (input_dict : InputDict) : Frame :=
  input_dict.foldl (fun df kv => applyItem df kv.1 kv.2) initFrame

/-- Python `d[k]`: first binding, `KeyError` when absent. -/
def dictGet (d : InputDict) (k : String) : Except Err Value :=
  match List.lookup k d with
  | some v => Except.ok v
  | none => Except.error (Err.keyError k)

/-- Using a dict value where a string is required (`value.lower()`):
non-strings raise (`AttributeError`, modelled as `typeError`). -/
def getStr : Value → Except Err String
  | .str s => Except.ok s
  | .num _ => Except.error Err.typeError

/-- Using a dict value where a number is required (`age <= 25`):
non-numbers raise (`TypeError`). -/
def getNum : Value → Except Err ℚ
  | .num q => Except.ok q
  | .str _ => Except.error Err.typeError

/-- A loaded scaler artifact: the joblib dict with keys `cols_to_scale`
and `scaler`; the fitted transform is opaque and acts on the list of
cell values extracted for `cols_to_scale` (width-preserving for real
sklearn scalers; nothing here depends on that). -/
structure ScalerBundle where
  cols_to_scale : List String
  transform : List Value → List Value

/-- The four module-level artifacts loaded at import time
(`prediction_helper.py` lines 27-30): two opaque models (a model maps the
one-row frame to the single value `prediction[0]`) and two scaler bundles. -/
structure Artifacts where
  model_young : Frame → ℚ
  model_rest : Frame → ℚ
  scaler_young : ScalerBundle
  scaler_rest : ScalerBundle

/-- The age dispatch of `handle_scaling` (line 105):
`scaler_young if age <= 25 else scaler_rest`. -/
def selectScaler (A : Artifacts) (age : ℚ) : ScalerBundle :=
  if age ≤ 25 then A.scaler_young else A.scaler_rest

/-- The age dispatch of `predict` (line 120):
`model_young if input_dict["Age"] <= 25 else model_rest`. -/
def selectModel (A : Artifacts) (age : ℚ) : Frame → ℚ :=
  if age ≤ 25 then A.model_young else A.model_rest

/-- Reading `df[cols_to_scale]` (line 110): extract the cells of the
listed columns in order; a missing column raises `KeyError`. -/
def readCols (df : Frame) : List String → Except Err (List Value)
  | [] => Except.ok []
  | c :: cs =>
    match getCol? df c with
    | some v =>
      match readCols df cs with
      | Except.ok vs => Except.ok (v :: vs)
      | Except.error e => Except.error e
    | none => Except.error (Err.keyError c)

/-- `handle_scaling` (`prediction_helper.py` lines 104-112): pick the
bundle by the age threshold, add the zero dummy column `income_level`,
read the `cols_to_scale` cells, transform them, write them back
positionally (`df[cols_to_scale] = scaler.transform(df[cols_to_scale])`),
and drop the dummy column.  The age argument is the raw dict value
`input_dict["Age"]`; comparing a non-number with 25 raises. -/
def handle_scaling (A : Artifacts) (ageV : Value) (df : Frame) : Except Err Frame :=
  match getNum ageV with
  | Except.error e => Except.error e
  | Except.ok age =>
    let scaler_object := selectScaler A age
    let cols_to_scale := scaler_object.cols_to_scale
    let df1 := setCol df "income_level" (Value.num 0)
    match readCols df1 cols_to_scale with
    | Except.error e => Except.error e
    | Except.ok vals =>
      let newVals := scaler_object.transform vals
      let df2 := (cols_to_scale.zip newVals).foldl (fun d cv => setCol d cv.1 cv.2) df1
      Except.ok (dropCol df2 "income_level")

/-- `preprocess_input` (`prediction_helper.py` lines 56-98): run the
encoding loop, set `normalized_risk_score` from the required key
`Medical History` (line 95), then hand off to `handle_scaling` with the
required key `Age` (line 96). -/
def preprocess_input (A : Artifacts) (input_dict : InputDict) : Except Err Frame :=
  let df0 := encodeLoop input_dict
  match dictGet input_dict "Medical History" with
  | Except.error e => Except.error e
  | Except.ok mh =>
    match getStr mh with
    | Except.error e => Except.error e
    | Except.ok s =>
      let df1 := setCol df0 "normalized_risk_score" (Value.num (calculate_normalized_risk s))
      match dictGet input_dict "Age" with
      | Except.error e => Except.error e
      | Except.ok ageV => handle_scaling A ageV df1

/-- Python `int()` on an exact rational: truncation toward zero. -/
def pyInt (q : ℚ) : ℤ := if 0 ≤ q then ⌊q⌋ else ⌈q⌉

/-- `predict` (`prediction_helper.py` lines 118-122): preprocess, pick the
model by the same age threshold on `input_dict["Age"]`, run it on the
one-row frame, and coerce the single result to an int. -/
def predict (A : Artifacts) (input_dict : InputDict) : Except Err ℤ :=
  match preprocess_input A input_dict with
  | Except.error e => Except.error e
  | Except.ok input_df =>
    match dictGet input_dict "Age" with
    | Except.error e => Except.error e
    | Except.ok ageV =>
      match getNum ageV with
      | Except.error e => Except.error e
      | Except.ok age => Except.ok (pyInt (selectModel A age input_df))

/-- A filesystem state for the artifact loader: file contents by path,
plus the set of created directories. -/
structure FileSystem where
  files : List (String × List Nat)
  dirs : List String

/-- The loader's external collaborators, opaque to this code:
`urllib.request.urlretrieve` (the bytes a URL serves, written verbatim),
`joblib.load` on raw bytes, and `os.path.dirname`. -/
structure Env (Art : Type) where
  fetch : String → List Nat
  deserialize : List Nat → Art
  dirname : String → String

/-- `load_or_download` (`prediction_helper.py` lines 10-20): if the path
is absent, either fetch it (creating the parent directory) when a URL is
given or raise `FileNotFoundError` naming the path; finally deserialize
the file now at the path.  The last branch is unreachable: after the
existence check or the fetch the path is always present. -/
def load_or_download {Art : Type} (env : Env Art) (fs : FileSystem)
    (path : String) (url : Option String) : Except String (Art × FileSystem) :=
  let step : Except String FileSystem :=
    if (fs.files.lookup path).isSome then Except.ok fs
    else
      match url with
      | some u =>
        Except.ok (FileSystem.mk ((path, env.fetch u) :: fs.files) (env.dirname path :: fs.dirs))
      | none => Except.error ("Missing required file: " ++ path)
  match step with
  | Except.error e => Except.error e
  | Except.ok fs1 =>
    match fs1.files.lookup path with
    | some bs => Except.ok (env.deserialize bs, fs1)
    | none => Except.error ("No such file: " ++ path)

/-- `preprocess_input` with the module-level artifact state threaded
explicitly.  The source body reads the globals (`scaler_young`,
`scaler_rest`) but contains no assignment to any module-level name, so
the state component is returned unchanged; the wrapper makes the absence
of hidden state mutation explicit. -/
def preprocess_inputSt (A : Artifacts) (input_dict : InputDict) :
    Except Err Frame × Artifacts :=
  (preprocess_input A input_dict, A)

/-- `preprocess_input` with the caller's dict threaded explicitly.  The
source only reads `input_dict` (`.items()` iteration and key lookups);
no statement adds, removes or reassigns a key, so the dict component is
returned unchanged. -/
def preprocess_inputD (A : Artifacts) (input_dict : InputDict) :
    Except Err Frame × InputDict :=
  (preprocess_input A input_dict, input_dict)

/-- `predict` with the caller's dict threaded explicitly; like
`preprocess_inputD`, the source only reads the dict. -/
def predictD (A : Artifacts) (input_dict : InputDict) :
    Except Err ℤ × InputDict :=
  (predict A input_dict, input_dict)

/-- Decidable well-typedness of one dict key: if present, its value is a
string (the shape `preprocess_input` needs for `Medical History` and the
categorical fields). -/
def strTyped (d : InputDict) (k : String) : Bool :=
  match List.lookup k d with
  | some (Value.str _) => true
  | some (Value.num _) => false
  | none => true

/-- Decidable well-typedness of one dict key: if present, its value is a
number (the shape needed for `Age`). -/
def numTyped (d : InputDict) (k : String) : Bool :=
  match List.lookup k d with
  | some (Value.num _) => true
  | some (Value.str _) => false
  | none => true

/-- A scaler bundle whose `cols_to_scale` only names schema columns or
the dummy column — the shape of the real fitted artifacts. -/
def goodBundle (b : ScalerBundle) : Bool :=
  b.cols_to_scale.all (fun c => expected_columns.contains c || c == "income_level")

/-- Concrete scaler bundle used to instantiate theorems with hypotheses:
its transform is the identity. -/
def demoBundle : ScalerBundle :=
  ScalerBundle.mk ["age", "income_level", "income_lakhs"] (fun vs => vs)

/-- Concrete artifacts used to instantiate theorems with hypotheses. -/
def demoArtifacts : Artifacts :=
  Artifacts.mk (fun _ => 5) (fun _ => 7) demoBundle demoBundle

/-- The representative applicant input of the spec (section 8). -/
def demoDict : InputDict :=
  [("Age", Value.num 30), ("Number of Dependants", Value.num 2),
   ("Income in Lakhs", Value.num 10), ("Genetical Risk", Value.num 3),
   ("Insurance Plan", Value.str "Gold"), ("Gender", Value.str "Male"),
   ("Region", Value.str "Southeast"), ("Marital Status", Value.str "Unmarried"),
   ("BMI Category", Value.str "Overweight"), ("Smoking Status", Value.str "Regular"),
   ("Employment Status", Value.str "Salaried"),
   ("Medical History", Value.str "Diabetes & High Blood Pressure")]

/-- Concrete loader environment used to instantiate theorems with
hypotheses: artifacts are modelled as naturals via the byte count. -/
def demoEnv : Env ℕ :=
  Env.mk (fun _ => [7, 7]) (fun bs => bs.length) (fun _ => "artifacts")

/-- Concrete filesystem state with one artifact present. -/
def demoFS : FileSystem :=
  FileSystem.mk [("artifacts/model_young.joblib", [9, 9, 9])] []

lemma dataAppend (s t : String) : (s ++ t).data = s.data ++ t.data := by
  cases s; cases t; rfl

lemma append_ne_of_head {p t : String} (x : String) {a b : Char} {pr tr : List Char}
    (hp : p.data = a :: pr) (ht : t.data = b :: tr) (hab : a ≠ b) : p ++ x ≠ t := by
  intro he
  have h1 : (p ++ x).data = t.data := by rw [he]
  rw [dataAppend, hp, ht] at h1
  exact hab (List.cons.injEq .. ▸ h1).1

lemma region_ne_plan (x : String) : ("region_" ++ x) ≠ "insurance_plan" :=
  append_ne_of_head x (rfl : "region_".data = 'r' :: "egion_".data) rfl (by decide)

lemma bmi_ne_plan (x : String) : ("bmi_category_" ++ x) ≠ "insurance_plan" :=
  append_ne_of_head x (rfl : "bmi_category_".data = 'b' :: "mi_category_".data) rfl (by decide)

lemma smoking_ne_plan (x : String) : ("smoking_status_" ++ x) ≠ "insurance_plan" :=
  append_ne_of_head x (rfl : "smoking_status_".data = 's' :: "moking_status_".data) rfl (by decide)

lemma employment_ne_plan (x : String) : ("employment_status_" ++ x) ≠ "insurance_plan" :=
  append_ne_of_head x (rfl : "employment_status_".data = 'e' :: "mployment_status_".data) rfl
    (by decide)

lemma cols_mapUpdate (df : Frame) (c : String) (v : Value) :
    cols (df.map (fun p => if p.1 = c then (p.1, v) else p)) = cols df := by
  induction df with
  | nil => rfl
  | cons p ps ih =>
    have hhead : (if p.1 = c then (p.1, v) else p).1 = p.1 := by
      by_cases h : p.1 = c <;> simp [h]
    simp only [cols, List.map_cons] at ih ⊢
    rw [hhead, ih]

lemma mem_cols_setCol {df : Frame} {c c' : String} {v : Value} :
    c' ∈ cols (setCol df c v) ↔ c' ∈ cols df ∨ c' = c := by
  unfold setCol
  by_cases hc : c ∈ cols df
  · rw [if_pos hc, cols_mapUpdate]
    constructor
    · exact Or.inl
    · rintro (h | rfl)
      · exact h
      · exact hc
  · rw [if_neg hc]
    simp [cols]

lemma cols_subset_setCol (df : Frame) (c : String) (v : Value) :
    cols df ⊆ cols (setCol df c v) :=
  fun _ hx => mem_cols_setCol.mpr (Or.inl hx)

lemma self_mem_cols_setCol (df : Frame) (c : String) (v : Value) :
    c ∈ cols (setCol df c v) :=
  mem_cols_setCol.mpr (Or.inr rfl)

lemma getCol?_mapUpdate_ne (df : Frame) {c c' : String} (v : Value) (h : c' ≠ c) :
    getCol? (df.map (fun p => if p.1 = c then (p.1, v) else p)) c' = getCol? df c' := by
  induction df with
  | nil => rfl
  | cons p ps ih =>
    simp only [List.map_cons, getCol?]
    by_cases hpc : p.1 = c
    · have hne : p.1 ≠ c' := fun he => h (he.symm.trans hpc)
      rw [if_pos hpc]
      show (if p.1 = c' then some v else _) = _
      rw [if_neg hne, if_neg hne]
      exact ih
    · rw [if_neg hpc]
      show (if p.1 = c' then some p.2 else _) = _
      by_cases hc' : p.1 = c'
      · rw [if_pos hc', if_pos hc']
      · rw [if_neg hc', if_neg hc']
        exact ih

lemma getCol?_append (df1 df2 : Frame) (c : String) :
    getCol? (df1 ++ df2) c = (getCol? df1 c).orElse (fun _ => getCol? df2 c) := by
  induction df1 with
  | nil => rfl
  | cons p ps ih =>
    simp only [List.cons_append, getCol?]
    by_cases hpc : p.1 = c <;> simp [hpc, ih]

lemma getCol?_setCol_ne (df : Frame) {c c' : String} (v : Value) (h : c' ≠ c) :
    getCol? (setCol df c v) c' = getCol? df c' := by
  unfold setCol
  by_cases hc : c ∈ cols df
  · rw [if_pos hc]
    exact getCol?_mapUpdate_ne df v h
  · rw [if_neg hc, getCol?_append]
    have h1 : getCol? [(c, v)] c' = none := by
      simp only [getCol?]
      rw [if_neg (fun he => h he.symm)]
    rw [h1]
    cases getCol? df c' <;> rfl

lemma getCol?_isSome_of_mem {df : Frame} {c : String} (h : c ∈ cols df) :
    ∃ v, getCol? df c = some v := by
  induction df with
  | nil => simp [cols] at h
  | cons p ps ih =>
    by_cases hpc : p.1 = c
    · exact ⟨p.2, by simp [getCol?, hpc]⟩
    · have hmem : c ∈ cols ps := by
        rcases List.mem_cons.mp h with h1 | h1
        · exact absurd h1.symm hpc
        · exact h1
      obtain ⟨v, hv⟩ := ih hmem
      exact ⟨v, by simp [getCol?, hpc, hv]⟩

lemma getCol?_dropCol_ne (df : Frame) {c c' : String} (h : c' ≠ c) :
    getCol? (dropCol df c) c' = getCol? df c' := by
  induction df with
  | nil => rfl
  | cons p ps ih =>
    unfold dropCol at ih ⊢
    rw [List.filter_cons]
    by_cases hpc : p.1 = c
    · have hne : p.1 ≠ c' := fun he => h (he.symm.trans hpc)
      rw [if_neg (by simp [hpc]), ih]
      show _ = (if p.1 = c' then some p.2 else getCol? ps c')
      rw [if_neg hne]
    · rw [if_pos (by simp [hpc])]
      show (if p.1 = c' then some p.2 else _) = (if p.1 = c' then some p.2 else _)
      by_cases hc' : p.1 = c'
      · rw [if_pos hc', if_pos hc']
      · rw [if_neg hc', if_neg hc', ih]

lemma not_mem_cols_dropCol (df : Frame) (c : String) : c ∉ cols (dropCol df c) := by
  intro h
  obtain ⟨p, hp, hpc⟩ := List.mem_map.mp h
  have := (List.mem_filter.mp hp).2
  simp [hpc] at this

set_option maxHeartbeats 1000000 in
lemma cols_subset_applyItem (df : Frame) (key : String) (v : Value) :
    cols df ⊆ cols (applyItem df key v) := by
  unfold applyItem
  split_ifs
  all_goals first
    | exact fun _ hx => hx
    | exact cols_subset_setCol _ _ _

lemma cols_subset_encodeLoop_aux (d : InputDict) (df : Frame) :
    cols df ⊆ cols (d.foldl (fun df kv => applyItem df kv.1 kv.2) df) := by
  induction d generalizing df with
  | nil => exact fun _ hx => hx
  | cons kv rest ih =>
    exact fun x hx => ih _ (cols_subset_applyItem _ _ _ hx)

lemma expected_subset_encodeLoop (d : InputDict) :
    ∀ c ∈ expected_columns, c ∈ cols (encodeLoop d) := by
  intro c hc
  have h0 : cols initFrame = expected_columns := rfl
  exact cols_subset_encodeLoop_aux d initFrame (h0 ▸ hc)

lemma readCols_ok {df : Frame} {l : List String} (h : ∀ c ∈ l, c ∈ cols df) :
    ∃ vs, readCols df l = Except.ok vs := by
  induction l with
  | nil => exact ⟨[], rfl⟩
  | cons c cs ih =>
    obtain ⟨v, hv⟩ := getCol?_isSome_of_mem (h c (List.mem_cons_self c cs))
    obtain ⟨vs, hvs⟩ := ih (fun x hx => h x (List.mem_cons_of_mem c hx))
    exact ⟨v :: vs, by simp [readCols, hv, hvs]⟩

lemma foldlSet_ne (l : List (String × Value)) (df : Frame) (c : String)
    (h : ∀ p ∈ l, p.1 ≠ c) :
    getCol? (l.foldl (fun d cv => setCol d cv.1 cv.2) df) c = getCol? df c := by
  induction l generalizing df with
  | nil => rfl
  | cons p ps ih =>
    rw [List.foldl_cons, ih _ (fun q hq => h q (List.mem_cons_of_mem p hq))]
    exact getCol?_setCol_ne df p.2 (fun he => h p (List.mem_cons_self p ps) he.symm)

set_option maxHeartbeats 1000000 in
lemma applyItem_plan (df : Frame) (key : String) (v : Value) (h : key ≠ "Insurance Plan") :
    getCol? (applyItem df key v) "insurance_plan" = getCol? df "insurance_plan" := by
  unfold applyItem
  split_ifs with h1 h2 h3 h4 h5 h6 h7 h8 h9 h10 h11
  · exact getCol?_setCol_ne df _ (by decide)
  · exact getCol?_setCol_ne df _ (Ne.symm (region_ne_plan v.fmt))
  · exact getCol?_setCol_ne df _ (Ne.symm (region_ne_plan v.fmt))
  · exact getCol?_setCol_ne df _ (by decide)
  · exact getCol?_setCol_ne df _ (Ne.symm (bmi_ne_plan v.fmt))
  · exact getCol?_setCol_ne df _ (Ne.symm (smoking_ne_plan v.fmt))
  · exact getCol?_setCol_ne df _ (Ne.symm (employment_ne_plan v.fmt))
  · exact getCol?_setCol_ne df _ (by decide)
  · exact getCol?_setCol_ne df _ (by decide)
  · exact getCol?_setCol_ne df _ (by decide)
  · exact getCol?_setCol_ne df _ (by decide)
  · rfl

lemma foldl_plan : ∀ (d : InputDict) (df : Frame), "Insurance Plan" ∉ d.map Prod.fst →
    getCol? (d.foldl (fun df kv => applyItem df kv.1 kv.2) df) "insurance_plan"
      = getCol? df "insurance_plan" := by
  intro d
  induction d with
  | nil => intro df _; rfl
  | cons kv rest ih =>
    intro df h
    have hk : kv.1 ≠ "Insurance Plan" := fun he => h (by simp [he])
    have hrest : "Insurance Plan" ∉ rest.map Prod.fst := fun hm => h (by simp [hm])
    rw [List.foldl_cons, ih _ hrest, applyItem_plan df kv.1 kv.2 hk]

/-- C1: the claim says the encoder output always has exactly the 18 schema
columns and that an unrecognized Region value such as "Northeast" is
silently dropped with no extra column.  The code contradicts this: the
Region branch assigns `df["region_Northeast"] = 0`, and pandas assignment
to a non-existent column creates it, so the output has a 19th all-zero
column `region_Northeast`.  The region_* sub-claim (all region columns 0)
does hold.  This theorem evaluates the encoder at the failing input. -/
theorem claim_C1_region_extra_column :
    cols (encodeLoop [("Region", Value.str "Northeast"),
        ("Medical History", Value.str "No Disease"), ("Age", Value.num 30)])
      = expected_columns ++ ["region_Northeast"] ∧
    (cols (encodeLoop [("Region", Value.str "Northeast"),
        ("Medical History", Value.str "No Disease"), ("Age", Value.num 30)])).length = 19 ∧
    getCol? (encodeLoop [("Region", Value.str "Northeast"),
        ("Medical History", Value.str "No Disease"), ("Age", Value.num 30)]) "region_Northeast"
      = some (Value.num 0) ∧
    getCol? (encodeLoop [("Region", Value.str "Northeast"),
        ("Medical History", Value.str "No Disease"), ("Age", Value.num 30)]) "region_Northwest"
      = some (Value.num 0) ∧
    getCol? (encodeLoop [("Region", Value.str "Northeast"),
        ("Medical History", Value.str "No Disease"), ("Age", Value.num 30)]) "region_Southeast"
      = some (Value.num 0) ∧
    getCol? (encodeLoop [("Region", Value.str "Northeast"),
        ("Medical History", Value.str "No Disease"), ("Age", Value.num 30)]) "region_Southwest"
      = some (Value.num 0) :=
  ⟨by decide, by decide, by decide, by decide, by decide, by decide⟩

/-- C2: `calculate_normalized_risk` lowers the history, splits on the
literal delimiter " & ", trims each token, maps it through the fixed
table with unrecognized tokens contributing 0, and returns the sum
divided by 14; in particular the four quoted example scores hold. -/
theorem claim_C2_risk_scorer :
    (∀ h : String, calculate_normalized_risk h = specScore h) ∧
    calculate_normalized_risk "no disease" = 0 ∧
    calculate_normalized_risk "unknown condition" = 0 ∧
    calculate_normalized_risk "Diabetes & High Blood Pressure" = 12 / 14 ∧
    calculate_normalized_risk "Heart Disease & Diabetes" = 1 := by
  refine ⟨?_, ?_, ?_, ?_, ?_⟩
  · intro h
    simp only [calculate_normalized_risk, riskTotal, specScore, List.map_map]
    rfl
  · have h0 : riskTotal "no disease" = 0 := by decide
    simp [calculate_normalized_risk, h0]
  · have h0 : riskTotal "unknown condition" = 0 := by decide
    simp [calculate_normalized_risk, h0]
  · have h0 : riskTotal "Diabetes & High Blood Pressure" = 12 := by decide
    simp only [calculate_normalized_risk, h0]
    norm_num
  · have h0 : riskTotal "Heart Disease & Diabetes" = 14 := by decide
    simp only [calculate_normalized_risk, h0]
    norm_num

/-- C3: the risk score is not clamped to [0,1]:
`calculate_normalized_risk "Heart Disease & Heart Disease"` is 16/14,
so an input exists whose score exceeds 1. -/
theorem claim_C3_not_clamped :
    calculate_normalized_risk "Heart Disease & Heart Disease" = 16 / 14 ∧
    ∃ h : String, 1 < calculate_normalized_risk h := by
  have h0 : riskTotal "Heart Disease & Heart Disease" = 16 := by decide
  constructor
  · simp only [calculate_normalized_risk, h0]
    norm_num
  · refine ⟨"Heart Disease & Heart Disease", ?_⟩
    simp only [calculate_normalized_risk, h0]
    norm_num

/-- C4: the age-band split is inclusive at 25 and identical in both
stages: at age 25 the young scaler bundle and the young model are
selected, and for every age strictly greater than 25 the rest bundle
and the rest model are selected. -/
theorem claim_C4_age_split (A : Artifacts) :
    selectScaler A 25 = A.scaler_young ∧ selectModel A 25 = A.model_young ∧
    ∀ age : ℚ, 25 < age →
      selectScaler A age = A.scaler_rest ∧ selectModel A age = A.model_rest := by
  refine ⟨?_, ?_, ?_⟩
  · norm_num [selectScaler]
  · norm_num [selectModel]
  · intro age hage
    have hn : ¬(age ≤ 25) := not_le.mpr hage
    exact ⟨by simp [selectScaler, hn], by simp [selectModel, hn]⟩

/-- Witness for C4 at the concrete ages 25 and 26. -/
theorem claim_C4_age_split_witness :
    (selectScaler demoArtifacts 25 = demoArtifacts.scaler_young ∧
      selectModel demoArtifacts 25 = demoArtifacts.model_young) ∧
    (selectScaler demoArtifacts 26 = demoArtifacts.scaler_rest ∧
      selectModel demoArtifacts 26 = demoArtifacts.model_rest) :=
  ⟨⟨(claim_C4_age_split demoArtifacts).1, (claim_C4_age_split demoArtifacts).2.1⟩,
    (claim_C4_age_split demoArtifacts).2.2 26 (by norm_num)⟩

/-- C6: `load_or_download` returns the deserialized local file when the
path exists; when it does not and a URL is given it creates the parent
directory, fetches the remote bytes to the path and deserializes them;
when it does not and no URL is given it fails with an error naming the
path. -/
theorem claim_C6_loader {Art : Type} (env : Env Art) (fs : FileSystem) (path : String) :
    (∀ bs, fs.files.lookup path = some bs →
      ∀ url, load_or_download env fs path url = Except.ok (env.deserialize bs, fs)) ∧
    (fs.files.lookup path = none →
      ∀ u, load_or_download env fs path (some u) =
        Except.ok (env.deserialize (env.fetch u),
          FileSystem.mk ((path, env.fetch u) :: fs.files) (env.dirname path :: fs.dirs))) ∧
    (fs.files.lookup path = none →
      load_or_download env fs path none = Except.error ("Missing required file: " ++ path)) := by
  refine ⟨?_, ?_, ?_⟩
  · intro bs hbs url
    simp [load_or_download, hbs]
  · intro hn u
    simp [load_or_download, hn, List.lookup]
  · intro hn
    simp [load_or_download, hn]

/-- Witness for C6: all three branches at concrete filesystem states. -/
theorem claim_C6_loader_witness :
    load_or_download demoEnv demoFS "artifacts/model_young.joblib" none
      = Except.ok (demoEnv.deserialize [9, 9, 9], demoFS) ∧
    load_or_download demoEnv demoFS "artifacts/scaler_young.joblib" (some "http://example/s")
      = Except.ok (demoEnv.deserialize (demoEnv.fetch "http://example/s"),
          FileSystem.mk (("artifacts/scaler_young.joblib",
              demoEnv.fetch "http://example/s") :: demoFS.files)
            (demoEnv.dirname "artifacts/scaler_young.joblib" :: demoFS.dirs)) ∧
    load_or_download demoEnv demoFS "artifacts/scaler_young.joblib" none
      = Except.error ("Missing required file: " ++ "artifacts/scaler_young.joblib") :=
  ⟨(claim_C6_loader demoEnv demoFS "artifacts/model_young.joblib").1 [9, 9, 9] rfl none,
   (claim_C6_loader demoEnv demoFS "artifacts/scaler_young.joblib").2.1 rfl "http://example/s",
   (claim_C6_loader demoEnv demoFS "artifacts/scaler_young.joblib").2.2 rfl⟩

/-- C8: encoding is deterministic and independent of prior calls: the
explicitly threaded module state is returned unchanged by
`preprocess_input`, running it twice in sequence on the same input gives
equal results, and a prior call on any other input does not change the
result. -/
theorem claim_C8_no_hidden_state (A : Artifacts) (d earlier : InputDict) :
    (preprocess_inputSt A d).2 = A ∧
    (preprocess_inputSt ((preprocess_inputSt A d).2) d).1 = (preprocess_inputSt A d).1 ∧
    (preprocess_inputSt ((preprocess_inputSt A earlier).2) d).1 = (preprocess_inputSt A d).1 :=
  ⟨rfl, rfl, rfl⟩

/-- C9: `preprocess_input` and `predict` leave the caller's input dict
unchanged: the explicitly threaded dict is returned as it was passed. -/
theorem claim_C9_input_not_mutated (A : Artifacts) (d : InputDict) :
    (preprocess_inputD A d).2 = d ∧ (predictD A d).2 = d :=
  ⟨rfl, rfl⟩

/-- C10: when the input dict lacks the "Insurance Plan" key, the encoded
frame's insurance_plan column keeps its initialization value 0; by
contrast, a present but unrecognized value yields the Bronze default 1. -/
theorem claim_C10_missing_plan (d : InputDict) (h : "Insurance Plan" ∉ d.map Prod.fst) :
    getCol? (encodeLoop d) "insurance_plan" = some (Value.num 0) ∧
    getCol? (encodeLoop [("Insurance Plan", Value.str "Platinum")]) "insurance_plan"
      = some (Value.num 1) :=
  ⟨(foldl_plan d initFrame h).trans (by decide), by decide⟩

/-- Witness for C10 at a concrete dict without the key. -/
theorem claim_C10_missing_plan_witness :
    getCol? (encodeLoop [("Age", Value.num 30)]) "insurance_plan" = some (Value.num 0) ∧
    getCol? (encodeLoop [("Insurance Plan", Value.str "Platinum")]) "insurance_plan"
      = some (Value.num 1) :=
  claim_C10_missing_plan [("Age", Value.num 30)] (by decide)

lemma planCode_default (s : String) (h1 : s ≠ "Bronze") (h2 : s ≠ "Silver") (h3 : s ≠ "Gold") :
    planCode (Value.str s) = 1 := by
  have b1 : (s == "Bronze") = false := beq_eq_false_iff_ne.mpr h1
  have b2 : (s == "Silver") = false := beq_eq_false_iff_ne.mpr h2
  have b3 : (s == "Gold") = false := beq_eq_false_iff_ne.mpr h3
  simp [planCode, insurance_plan_encoding, List.lookup, b1, b2, b3]

lemma goodBundle_select (A : Artifacts) (hy : goodBundle A.scaler_young = true)
    (hr : goodBundle A.scaler_rest = true) (age : ℚ) :
    goodBundle (selectScaler A age) = true := by
  unfold selectScaler
  split_ifs <;> assumption

lemma handle_scaling_ok (A : Artifacts) {age : ℚ}
    (hg : goodBundle (selectScaler A age) = true) (df : Frame)
    (hdf : ∀ c ∈ expected_columns, c ∈ cols df) :
    ∃ df', handle_scaling A (Value.num age) df = Except.ok df' := by
  have hsub : ∀ c ∈ (selectScaler A age).cols_to_scale,
      c ∈ cols (setCol df "income_level" (Value.num 0)) := by
    intro c hc
    have hcc := List.all_eq_true.mp hg c hc
    have hcc2 : c ∈ expected_columns ∨ c = "income_level" := by simpa using hcc
    rcases hcc2 with h1 | h1
    · exact cols_subset_setCol _ _ _ (hdf c h1)
    · exact h1 ▸ self_mem_cols_setCol _ _ _
  obtain ⟨vs, hvs⟩ := readCols_ok hsub
  refine ⟨dropCol
    (((selectScaler A age).cols_to_scale.zip ((selectScaler A age).transform vs)).foldl
      (fun d cv => setCol d cv.1 cv.2) (setCol df "income_level" (Value.num 0)))
    "income_level", ?_⟩
  simp only [handle_scaling, getNum]
  rw [hvs]

/-- C5: `predict` fails with an uncaught lookup error exactly when the
well-typed input dict lacks "Medical History" or "Age" (the artifacts'
`cols_to_scale` naming only schema columns or the dummy, as the real
fitted bundles do); any such error names one of those two keys; and an
unrecognized Insurance Plan string degrades to the Bronze code 1 rather
than raising. -/
theorem claim_C5_error_handling (A : Artifacts) (hy : goodBundle A.scaler_young = true)
    (hr : goodBundle A.scaler_rest = true) (d : InputDict)
    (hMH : strTyped d "Medical History" = true) (hAge : numTyped d "Age" = true) :
    ((predict A d).isOk = true ↔
      (List.lookup "Medical History" d).isSome ∧ (List.lookup "Age" d).isSome) ∧
    (∀ e, predict A d = Except.error e →
      e = Err.keyError "Medical History" ∨ e = Err.keyError "Age") ∧
    (∀ s, s ≠ "Bronze" → s ≠ "Silver" → s ≠ "Gold" → planCode (Value.str s) = 1) := by
  have hplan : ∀ s, s ≠ "Bronze" → s ≠ "Silver" → s ≠ "Gold" → planCode (Value.str s) = 1 :=
    fun s h1 h2 h3 => planCode_default s h1 h2 h3
  cases hmh : List.lookup "Medical History" d with
  | none =>
    have hpre : preprocess_input A d = Except.error (Err.keyError "Medical History") := by
      simp only [preprocess_input, dictGet]
      rw [hmh]
    have hp : predict A d = Except.error (Err.keyError "Medical History") := by
      simp only [predict]
      rw [hpre]
    refine ⟨?_, ?_, hplan⟩
    · rw [hp]
      simp [hmh, Except.isOk, Except.toBool]
    · intro e he
      rw [hp] at he
      injection he with h1
      exact Or.inl h1.symm
  | some mv =>
    obtain ⟨ms, rfl⟩ : ∃ s, mv = Value.str s := by
      have hthis := hMH
      unfold strTyped at hthis
      rw [hmh] at hthis
      cases mv with
      | str s => exact ⟨s, rfl⟩
      | num q => simp at hthis
    cases hage : List.lookup "Age" d with
    | none =>
      have hpre : preprocess_input A d = Except.error (Err.keyError "Age") := by
        simp only [preprocess_input, dictGet, getStr]
        rw [hmh, hage]
      have hp : predict A d = Except.error (Err.keyError "Age") := by
        simp only [predict]
        rw [hpre]
      refine ⟨?_, ?_, hplan⟩
      · rw [hp]
        simp [hmh, hage, Except.isOk, Except.toBool]
      · intro e he
        rw [hp] at he
        injection he with h1
        exact Or.inr h1.symm
    | some av =>
      obtain ⟨aq, rfl⟩ : ∃ q, av = Value.num q := by
        have hthis := hAge
        unfold numTyped at hthis
        rw [hage] at hthis
        cases av with
        | num q => exact ⟨q, rfl⟩
        | str s => simp at hthis
      have hgood : goodBundle (selectScaler A aq) = true := goodBundle_select A hy hr aq
      have hdf1 : ∀ c ∈ expected_columns,
          c ∈ cols (setCol (encodeLoop d) "normalized_risk_score"
            (Value.num (calculate_normalized_risk ms))) :=
        fun c hc => cols_subset_setCol _ _ _ (expected_subset_encodeLoop d c hc)
      obtain ⟨df', hdf'⟩ := handle_scaling_ok A hgood _ hdf1
      have hpre : preprocess_input A d = Except.ok df' := by
        simp only [preprocess_input, dictGet, getStr]
        rw [hmh, hage]
        exact hdf'
      have hp : predict A d = Except.ok (pyInt (selectModel A aq df')) := by
        simp only [predict, dictGet, getNum]
        rw [hpre, hage]
      refine ⟨?_, ?_, hplan⟩
      · rw [hp]
        simp [hmh, hage, Except.isOk, Except.toBool]
      · intro e he
        rw [hp] at he
        exact Except.noConfusion he

/-- Witness for C5 at the spec's representative input and the concrete
artifacts: both required keys are present and the prediction succeeds;
an unrecognized plan string "Platinum" encodes as 1. -/
theorem claim_C5_error_handling_witness :
    ((predict demoArtifacts demoDict).isOk = true ↔
      (List.lookup "Medical History" demoDict).isSome ∧
        (List.lookup "Age" demoDict).isSome) ∧
    planCode (Value.str "Platinum") = 1 :=
  ⟨(claim_C5_error_handling demoArtifacts rfl rfl demoDict rfl rfl).1,
   (claim_C5_error_handling demoArtifacts rfl rfl demoDict rfl rfl).2.2 "Platinum"
     (by decide) (by decide) (by decide)⟩

/-- C7: whenever the scaling stage returns a frame, that frame does not
contain the dummy placeholder column "income_level", and every column
outside the selected bundle's `cols_to_scale` (other than the dummy
itself) is returned unchanged. -/
theorem claim_C7_scaling_frame (A : Artifacts) (age : ℚ) (df df' : Frame)
    (h : handle_scaling A (Value.num age) df = Except.ok df') :
    "income_level" ∉ cols df' ∧
    ∀ c, c ∉ (selectScaler A age).cols_to_scale → c ≠ "income_level" →
      getCol? df' c = getCol? df c := by
  cases hr : readCols (setCol df "income_level" (Value.num 0))
      (selectScaler A age).cols_to_scale with
  | error e =>
    have hh : handle_scaling A (Value.num age) df = Except.error e := by
      simp only [handle_scaling, getNum]
      rw [hr]
    rw [hh] at h
    exact Except.noConfusion h
  | ok vals =>
    have hh : handle_scaling A (Value.num age) df =
        Except.ok (dropCol
          (((selectScaler A age).cols_to_scale.zip
              ((selectScaler A age).transform vals)).foldl
            (fun d cv => setCol d cv.1 cv.2) (setCol df "income_level" (Value.num 0)))
          "income_level") := by
      simp only [handle_scaling, getNum]
      rw [hr]
    rw [hh] at h
    injection h with h2
    subst h2
    constructor
    · exact not_mem_cols_dropCol _ _
    · intro c hc hci
      rw [getCol?_dropCol_ne _ hci]
      rw [foldlSet_ne _ _ _ ?hzip]
      case hzip =>
        intro p hp
        obtain ⟨a, b⟩ := p
        exact fun he => hc (he ▸ (List.of_mem_zip hp).1)
      exact getCol?_setCol_ne df _ hci

/-- Witness for C7 at the concrete artifacts: scaling the all-zero schema
frame with the identity transform succeeds, and both conclusions hold at
the column "gender_Male". -/
theorem claim_C7_scaling_frame_witness :
    "income_level" ∉ cols initFrame ∧
    getCol? initFrame "gender_Male" = getCol? initFrame "gender_Male" :=
  ⟨(claim_C7_scaling_frame demoArtifacts 30 initFrame initFrame rfl).1,
   (claim_C7_scaling_frame demoArtifacts 30 initFrame initFrame rfl).2 "gender_Male"
     (by decide) (by decide)⟩

end InsurancePremium
